import Mathlib

/-!
# Shoreline API: a shallow embedding of `api/shorelineApi.go`

The handlers of `api/shorelineApi.go` are embedded as functions that produce
the ordered list of calls they make on the `http.ResponseWriter` and on the
`clients.StoreClient`, together with the way the handler ends (it returns,
`log.Fatal` ends the process, or a run-time panic unwinds it).

Go strings are byte sequences; a byte is a natural number below 256.
-/

namespace Shoreline

/-! ## Go strings -/

/-- A Go `string`: a sequence of bytes, each a natural number below 256. -/
abbrev GoString := List Nat

/-- The bytes of an ASCII literal. -/
def str (s : String) : GoString := s.toList.map Char.toNat

/-- A Go `error` value that is not nil. -/
structure GoError where
  msg : String
deriving DecidableEq

/-- What a Go call of shape `(value, err)` that may also panic produces. -/
inductive GoResult (α : Type) where
  | ok (v : α)
  | error (e : GoError)
  | panic (msg : String)
deriving DecidableEq

/-! ## `strings.SplitN` and `strings.Split` for a one-byte separator -/

/-- The part of `s` before the first `sep` and the part after it
(`strings.Index` followed by the two slices of `genSplit`); `none` when `sep`
does not occur. -/
def cut (sep : Nat) : GoString → Option (GoString × GoString)
  | [] => none
  | c :: cs =>
    if c = sep then some ([], cs)
    else match cut sep cs with
      | none => none
      | some (h, t) => some (c :: h, t)

/-- The call `strings.SplitN(s, sep, n)` for `n ≥ 0` and a one-byte `sep`: at most
`n` pieces, the last one the unsplit remainder. -/
def SplitN (s : GoString) (sep : Nat) : Nat → List GoString
  | 0 => []
  | 1 => [s]
  | n + 2 =>
    match cut sep s with
    | none => [s]
    | some (h, t) => h :: SplitN t sep (n + 1)

/-- The call `strings.Split(s, sep)`, which is `SplitN` with `Count(s, sep) + 1`
pieces. -/
def Split (s : GoString) (sep : Nat) : List GoString :=
  SplitN s sep (s.count sep + 1)

/-! ## `encoding/base64`, `URLEncoding` (RFC 4648 section 5, padded) -/

/-- The URL-safe alphabet `A-Z a-z 0-9 - _` as a function of the 6-bit value. -/
def encodeURL (v : Nat) : Nat :=
  if v < 26 then 65 + v
  else if v < 52 then 97 + (v - 26)
  else if v < 62 then 48 + (v - 52)
  else if v = 62 then 45
  else 95

/-- The decode map of the URL-safe alphabet: the 6-bit value of a byte of the
alphabet, `none` (Go: `0xFF`) for every other byte. -/
def decodeMap (c : Nat) : Option Nat :=
  if 65 ≤ c ∧ c ≤ 90 then some (c - 65)
  else if 97 ≤ c ∧ c ≤ 122 then some (c - 97 + 26)
  else if 48 ≤ c ∧ c ≤ 57 then some (c - 48 + 52)
  else if c = 45 then some 62
  else if c = 95 then some 63
  else none

/-- The call `base64.URLEncoding.EncodeToString`: three bytes give four
characters; a final group of one or two bytes is padded with `=` (61). -/
def EncodeToString : GoString → GoString
  | [] => []
  | [a] =>
    let val := (a % 256) * 65536
    [encodeURL (val / 262144 % 64), encodeURL (val / 4096 % 64), 61, 61]
  | [a, b] =>
    let val := (a % 256) * 65536 + (b % 256) * 256
    [encodeURL (val / 262144 % 64), encodeURL (val / 4096 % 64),
      encodeURL (val / 64 % 64), 61]
  | a :: b :: c :: rest =>
    let val := (a % 256) * 65536 + (b % 256) * 256 + c % 256
    encodeURL (val / 262144 % 64) :: encodeURL (val / 4096 % 64) ::
      encodeURL (val / 64 % 64) :: encodeURL (val % 64) :: EncodeToString rest

/-- The quantum loop of `Encoding.decode`: four characters give three bytes; a
quantum that ends in `=` or `==` gives two or one and must end the input; every
other shape is a `CorruptInputError`. -/
def decodeQuanta : GoString → Option GoString
  | [] => some []
  | c0 :: c1 :: c2 :: c3 :: rest =>
    match decodeMap c0, decodeMap c1 with
    | some v0, some v1 =>
      if c2 = 61 then
        if c3 = 61 ∧ rest = [] then some [(v0 * 4 + v1 / 16) % 256] else none
      else match decodeMap c2 with
        | none => none
        | some v2 =>
          if c3 = 61 then
            if rest = [] then
              some [(v0 * 4 + v1 / 16) % 256, (v1 * 16 + v2 / 4) % 256]
            else none
          else match decodeMap c3 with
            | none => none
            | some v3 =>
              match decodeQuanta rest with
              | none => none
              | some out =>
                some ((v0 * 4 + v1 / 16) % 256 :: (v1 * 16 + v2 / 4) % 256 ::
                  (v2 * 64 + v3) % 256 :: out)
    | _, _ => none
  | _ => none

/-- The call `base64.URLEncoding.DecodeString`: carriage returns and line feeds
are dropped, then the quanta are decoded. -/
def DecodeString (s : GoString) : GoResult GoString :=
  match decodeQuanta (s.filter (fun c => c != 13 && c != 10)) with
  | some out => .ok out
  | none => .error ⟨"illegal base64 data"⟩

/-! ## `models` -/

/-- Modelled from the spec: the declaration of `models.User` is not among the
sources; the handlers read and write its fields `Id`, `Name` and `Pw` (the spec's
id, name and secret). -/
structure User where
  Id : GoString
  Name : GoString
  Pw : GoString
deriving DecidableEq

/-- The function `unpackAuth`: the user name and password of an `Authorization`
line. The two index expressions `parts[1]` and `details[1]` panic when the slice
has a single element. -/
def unpackAuth (authLine : GoString) : GoResult User :=
  if authLine = [] then
    .ok { Id := [], Name := [], Pw := [] }
  else
    let parts := SplitN authLine 32 2
    match parts with
    | _ :: payload :: _ =>
      match DecodeString payload with
      | .error err => .error err
      | .panic m => .panic m
      | .ok decodedPayload =>
        let details := Split decodedPayload 58
        match details with
        | d0 :: d1 :: _ => .ok { Id := [], Name := d0, Pw := d1 }
        | _ => .panic "index out of range"
    | _ => .panic "index out of range"

/-- Modelled from the spec: the declaration of `models.Data` is not among the
sources; it is the spec's TokenData (subject id, server flag, duration in
seconds), with the field names the handlers use. -/
structure Data where
  UserId : GoString
  IsServer : Bool
  Duration : Int
deriving DecidableEq

/-- Modelled from the spec: the declaration of `models.SessionToken` is not among
the sources; the handlers read its opaque string `Token` and its `TokenData`. -/
structure SessionToken where
  Token : GoString
  TokenData : Data
deriving DecidableEq

/-- The request headers, through `http.Header.Get` (the empty string for a header
that is not there). -/
structure Header where
  Get : GoString → GoString

/-- Modelled from the spec: the functions of package `models` are not among the
sources and are taken as parameters. `GetSessionToken` is the spec's Parse (an
absent token has the empty `Token`), `NewSessionToken` the spec's Create (every
caller discards its error result and uses the token), `Verify` the spec's Verify
(a boolean gate). -/
structure Models where
  GetSessionToken : Header → SessionToken
  NewSessionToken : Data → GoString → SessionToken
  Verify : SessionToken → GoString → Bool

/-- The two calls into `encoding/json`: `json.Marshal` of a `*models.User` and
`Decoder.Decode` of a request body into a `*models.User`, each with its error
result (`none` is nil). -/
structure Json where
  Marshal : Option User → GoString × Option GoError
  Decode : GoString → Option User × Option GoError

/-! ## `clients.StoreClient` -/

/-- The interface `clients.StoreClient`: what each method answers (`none` is a nil
error or a nil pointer). `Close` has no result. -/
structure StoreClient where
  Ping : Option GoError
  UpsertUser : User → Option GoError
  FindUser : User → Option User × Option GoError
  FindUsers : User → List User × Option GoError
  RemoveUser : User → Option GoError
  AddToken : SessionToken → Option GoError
  FindToken : SessionToken → Option SessionToken × Option GoError
  RemoveToken : SessionToken → Option GoError

/-! ## The API -/

/-- The struct `config`. -/
structure config where
  ServerSecret : GoString
  Salt : GoString

/-- The struct `Api`. -/
structure Api where
  Store : StoreClient
  config : config

def TP_SERVER_NAME : GoString := str "x-tidepool-server-name"
def TP_SERVER_SECRET : GoString := str "x-tidepool-server-secret"
def TP_SESSION_TOKEN : GoString := str "x-tidepool-session-token"

def StatusOK : Nat := 200
def StatusCreated : Nat := 201
def StatusBadRequest : Nat := 400
def StatusUnauthorized : Nat := 401
def StatusInternalServerError : Nat := 500

/-- The function `InitApi`. -/
def InitApi (store : StoreClient) : Api :=
  { Store := store, config := { ServerSecret := str "shhh! don\x27t tell", Salt := [] } }

/-- What a handler reads of the `http.Request`: its headers, the `userid`
parameter of the URL query, and its body (`none` is a nil body). -/
structure Request where
  Header : Header
  userid : GoString
  Body : Option GoString

/-! ## Handler runs -/

/-- One observable call of a handler: on the `http.ResponseWriter`, on the store,
or `log.Fatal`. -/
inductive Event where
  | WriteHeader (code : Nat)
  | HeaderSet (key value : GoString)
  | HeaderAdd (key value : GoString)
  | Write (bytes : GoString)
  | UpsertUser (user : User)
  | FindUser (user : User)
  | AddToken (token : SessionToken)
  | LogFatal (err : GoError)
deriving DecidableEq

/-- How a handler ends: it returns; `log.Fatal` ends the process (`os.Exit(1)`);
a run-time panic unwinds it. -/
inductive Exit where
  | returned
  | fatal
  | panic
deriving DecidableEq

/-- A piece of handler code that has run: the calls it made, in order, and
either the value it goes on with or the abnormal end of the handler. -/
inductive Step (α : Type) where
  | cont (a : α) (log : List Event)
  | halt (x : Exit) (log : List Event)

/-- A piece of handler code. -/
def Handler (α : Type) : Type := Step α

/-- The calls a piece of handler code made. -/
def Step.log {α : Type} : Step α → List Event
  | .cont _ log => log
  | .halt _ log => log

instance : Monad Handler where
  pure a := .cont a []
  bind h f :=
    match h with
    | .cont a log1 =>
      match f a with
      | .cont b log2 => .cont b (log1 ++ log2)
      | .halt x log2 => .halt x (log1 ++ log2)
    | .halt x log1 => .halt x log1

/-- Record one call. -/
def emit (e : Event) : Handler Unit := .cont () [e]

/-- End the handler abnormally. -/
def halt {α : Type} (x : Exit) : Handler α := .halt x []

/-- A whole run of a handler: its calls, in order, and how it ended. -/
structure Run where
  events : List Event
  exit : Exit
deriving DecidableEq

/-- The run of a handler. -/
def Handler.run (h : Handler Unit) : Run :=
  match h with
  | .cont _ log => { events := log, exit := .returned }
  | .halt x log => { events := log, exit := x }

/-- The call `log.Fatal(err)`: the error is logged and the process exits. -/
def logFatal (err : GoError) : Handler Unit := do
  emit (.LogFatal err)
  halt .fatal

/-- The store call `a.Store.UpsertUser(usr)`. -/
def callUpsertUser (s : StoreClient) (usr : User) : Handler (Option GoError) := do
  emit (.UpsertUser usr)
  pure (s.UpsertUser usr)

/-- The store call `a.Store.FindUser(usr)`. -/
def callFindUser (s : StoreClient) (usr : User) : Handler (Option User × Option GoError) := do
  emit (.FindUser usr)
  pure (s.FindUser usr)

/-- The store call `a.Store.AddToken(token)`. -/
def callAddToken (s : StoreClient) (token : SessionToken) : Handler (Option GoError) := do
  emit (.AddToken token)
  pure (s.AddToken token)

/-- The function `errorRes`: on a non-nil error `log.Fatal` ends the process, so
the `WriteHeader` after it is never reached. -/
def errorRes (err : Option GoError) : Handler Unit := do
  match err with
  | some e =>
    logFatal e
    emit (.WriteHeader StatusInternalServerError)
    return
  | none => pure ()

/-- The function `findUserDetail`. -/
def findUserDetail (j : Json) (req : Request) : Handler (Option User) := do
  let id := req.userid
  let mut usr : Option User := none
  match req.Body with
  | some body =>
    let (decoded, err) := j.Decode body
    usr := decoded
    errorRes err
  | none => pure ()
  match usr with
  | some u =>
    if id ≠ [] then
      usr := some { u with Id := id }
  | none =>
    if id ≠ [] then
      usr := some { Id := id, Name := [], Pw := [] }
  return usr

/-- The function `tokenCheck`: its `return` leaves `tokenCheck` only. -/
def tokenCheck (m : Models) (req : Request) : Handler Unit := do
  let token := m.GetSessionToken req.Header
  if token.Token = [] then
    emit (.WriteHeader StatusUnauthorized)
    return

/-- The marshalling step of `usersRes`: `json.Marshal`, `log.Fatal` on an error,
then the bytes are written. -/
def writeUser (j : Json) (u : Option User) : Handler Unit := do
  let (bytes, err) := j.Marshal u
  match err with
  | some e => logFatal e
  | none => pure ()
  emit (.Write bytes)

/-- The function `usersRes`. -/
def usersRes (j : Json) (users : List (Option User)) : Handler Unit := do
  emit (.WriteHeader StatusOK)
  emit (.HeaderAdd (str "content-type") (str "application/json"))
  if users.length > 1 then
    emit (.Write (str "["))
    for u in users do
      writeUser j u
    emit (.Write (str "]"))
    return
  else
    match users with
    | [u] =>
      writeUser j u
      return
    | _ => pure ()

/-- The handler `Api.CreateUser`. -/
def CreateUser (j : Json) (a : Api) (req : Request) : Handler Unit := do
  match ← findUserDetail j req with
  | none =>
    emit (.WriteHeader StatusBadRequest)
    return
  | some usr =>
    let err ← callUpsertUser a.Store usr
    errorRes err
    emit (.WriteHeader StatusCreated)
    return

/-- The handler `Api.UpdateUser`. -/
def UpdateUser (m : Models) (j : Json) (a : Api) (req : Request) : Handler Unit := do
  tokenCheck m req
  match ← findUserDetail j req with
  | none =>
    emit (.WriteHeader StatusBadRequest)
    return
  | some usr =>
    let err ← callUpsertUser a.Store usr
    errorRes err
    emit (.WriteHeader StatusOK)
    return

/-- The handler `Api.GetUserInfo`. -/
def GetUserInfo (m : Models) (j : Json) (a : Api) (req : Request) : Handler Unit := do
  tokenCheck m req
  match ← findUserDetail j req with
  | none =>
    emit (.WriteHeader StatusBadRequest)
    return
  | some usr =>
    match ← callFindUser a.Store usr with
    | (_, some err) => errorRes (some err)
    | (results, none) => usersRes j [results]
    return

/-- The handler `Api.DeleteUser`. -/
def DeleteUser (m : Models) (req : Request) : Handler Unit := do
  tokenCheck m req
  emit (.WriteHeader 501)

/-- The handler `Api.Login`. The branch that sets the token does not return, so
control reaches the final `WriteHeader(http.StatusUnauthorized)`. -/
def Login (m : Models) (j : Json) (a : Api) (req : Request) : Handler Unit := do
  match unpackAuth (req.Header.Get (str "Authorization")) with
  | .panic _ => halt .panic
  | .error err => errorRes (some err)
  | .ok usr =>
    if usr.Name = [] ∨ usr.Pw = [] then
      emit (.WriteHeader StatusBadRequest)
      return
    else
      match ← callFindUser a.Store usr with
      | (_, some err) => errorRes (some err)
      | (some results, none) =>
        if results.Id ≠ [] then
          let sessionToken := m.NewSessionToken
            { UserId := results.Id, IsServer := false, Duration := 3600 } a.config.ServerSecret
          match ← callAddToken a.Store sessionToken with
          | none =>
            emit (.HeaderSet TP_SESSION_TOKEN sessionToken.Token)
            usersRes j [some results]
          | some _ => pure ()
      | (none, none) => pure ()
  emit (.WriteHeader StatusUnauthorized)
  return

/-- The handler `Api.ServerLogin`. -/
def ServerLogin (m : Models) (a : Api) (req : Request) : Handler Unit := do
  let server := req.Header.Get TP_SERVER_NAME
  let pw := req.Header.Get TP_SERVER_SECRET
  if server = [] ∨ pw = [] then
    emit (.WriteHeader StatusBadRequest)
    return
  if pw = a.config.ServerSecret then
    let sessionToken := m.NewSessionToken
      { UserId := server, IsServer := true, Duration := 3600 } a.config.ServerSecret
    match ← callAddToken a.Store sessionToken with
    | none =>
      emit (.HeaderSet TP_SESSION_TOKEN sessionToken.Token)
      emit (.WriteHeader StatusOK)
      return
    | some err => errorRes (some err)
  emit (.WriteHeader StatusUnauthorized)
  return

/-- The handler `Api.RefreshSession`. -/
def RefreshSession (m : Models) (a : Api) (req : Request) : Handler Unit := do
  let sessionToken := m.GetSessionToken req.Header
  if m.Verify sessionToken a.config.ServerSecret = true then
    if sessionToken.TokenData.IsServer = false ∧ sessionToken.TokenData.Duration > 60 * 60 * 2 then
      emit (.HeaderAdd TP_SESSION_TOKEN sessionToken.Token)
      emit (.HeaderAdd (str "content-type") (str "application/json"))
      emit (.WriteHeader StatusOK)
      emit (.Write (str "\x7b\"userid\": " ++ sessionToken.TokenData.UserId ++ str " \x7d"))
      return
    let newToken := m.NewSessionToken
      { UserId := sessionToken.TokenData.UserId,
        Duration := 10000,
        IsServer := sessionToken.TokenData.IsServer } a.config.ServerSecret
    match ← callAddToken a.Store newToken with
    | none =>
      emit (.HeaderSet TP_SESSION_TOKEN newToken.Token)
      emit (.WriteHeader StatusOK)
      return
    | some err => errorRes (some err)
  emit (.WriteHeader StatusUnauthorized)
  return

/-- The handler `Api.RequireServerToken`. -/
def RequireServerToken (m : Models) (a : Api) (req : Request) : Handler Unit := do
  tokenCheck m req
  let svrToken := m.GetSessionToken req.Header
  if m.Verify svrToken a.config.ServerSecret = true then
    if svrToken.TokenData.IsServer = true then
      return
  emit (.WriteHeader StatusUnauthorized)
  return

/-! ## What the client sees: `http.ResponseWriter` -/

/-- The state of an `http.ResponseWriter`: whether the status line is written,
the status, the headers as the handler has set them, the headers that went out
with the status line, and the body. -/
structure Response where
  wroteHeader : Bool
  Code : Nat
  header : GoString → List GoString
  sent : GoString → List GoString
  Body : GoString

/-- One call on the `http.ResponseWriter`. The first `WriteHeader` fixes the
status and sends the headers set so far; a later `WriteHeader` is ignored; a
`Write` before any `WriteHeader` sends status 200. Store calls and `log.Fatal`
leave the response as it is. -/
def Response.step (r : Response) : Event → Response
  | .WriteHeader code =>
    if r.wroteHeader then r
    else { r with wroteHeader := true, Code := code, sent := r.header }
  | .HeaderSet key value =>
    { r with header := fun k => if k = key then [value] else r.header k }
  | .HeaderAdd key value =>
    { r with header := fun k => if k = key then r.header k ++ [value] else r.header k }
  | .Write bytes =>
    if r.wroteHeader then { r with Body := r.Body ++ bytes }
    else { r with wroteHeader := true, Code := StatusOK, sent := r.header,
                  Body := r.Body ++ bytes }
  | _ => r

/-- The fresh `http.ResponseWriter`: no status line, no header, no body. -/
def Response.fresh : Response :=
  { wroteHeader := false, Code := 0, header := fun _ => [], sent := fun _ => [], Body := [] }

/-- What `net/http` does when the handler returns: a response whose status line
is not yet written goes out with status 200. -/
def Response.finish (r : Response) : Response :=
  if r.wroteHeader then r
  else { r with wroteHeader := true, Code := StatusOK, sent := r.header }

/-- The response the client receives from a run. When the handler returns, it is
what the calls of the run built on the fresh `http.ResponseWriter`, finished.
When the handler does not return (`log.Fatal` ends the process, or a panic
unwinds the handler), the buffered status line, headers and body never go out:
the client receives no status line, which is the fresh response. -/
def respond (r : Run) : Response :=
  match r.exit with
  | .returned => (r.events.foldl Response.step Response.fresh).finish
  | .fatal => Response.fresh
  | .panic => Response.fresh

/-- Whether a call is a call of the store. -/
def Event.isStoreCall : Event → Bool
  | .UpsertUser _ => true
  | .FindUser _ => true
  | .AddToken _ => true
  | _ => false

/-- The store calls of a run, in order. -/
def storeCalls (events : List Event) : List Event := events.filter Event.isStoreCall

/-- Whether a call sets or adds the response header `key`. -/
def Event.writesHeader (key : GoString) : Event → Bool
  | .HeaderSet k _ => k = key
  | .HeaderAdd k _ => k = key
  | _ => false

/-- The calls of a run that set or add the response header `key`. -/
def headerWrites (key : GoString) (events : List Event) : List Event :=
  events.filter (Event.writesHeader key)

/-- Modelled from the spec: `Verify` of package `models` is not among the
sources; the spec's Verify returns false on any decode failure, so it returns
false on the absent token (the one with the empty `Token`). -/
def Models.RejectsAbsent (m : Models) : Prop :=
  ∀ (t : SessionToken) (secret : GoString), t.Token = [] → m.Verify t secret = false

/-! ## Concrete collaborators, for evaluating the handlers -/

/-- A store that answers `FindUser` with `found` and `findErr`, `AddToken` with
`addErr`, and every other call with success. -/
def demoStore (found : Option User) (findErr addErr : Option GoError) : StoreClient where
  Ping := none
  UpsertUser _ := none
  FindUser _ := (found, findErr)
  FindUsers _ := ([], none)
  RemoveUser _ := none
  AddToken _ := addErr
  FindToken _ := (none, none)
  RemoveToken _ := none

/-- A token codec whose presented token carries the data `presented` and
verifies when `valid` holds and the token is not absent; a new token is the
secret, a dot and the subject id. -/
def demoModels (presented : Data) (valid : Bool) : Models where
  GetSessionToken h := { Token := h.Get TP_SESSION_TOKEN, TokenData := presented }
  NewSessionToken d secret := { Token := secret ++ 46 :: d.UserId, TokenData := d }
  Verify t _ := valid && (t.Token != [])

/-- A JSON codec that writes a user as its id, reads a non-empty body as the
user of that name, and fails on the empty body. -/
def demoJson : Json where
  Marshal u := ((match u with | some usr => usr.Id | none => str "null"), none)
  Decode body :=
    if body = [] then (none, some ⟨"EOF"⟩)
    else (some { Id := [], Name := body, Pw := [] }, none)

/-- A request with the given `Authorization`, session-token, server-name and
server-secret headers and `userid` query parameter, and no body. -/
def demoRequest (auth token server pw userid : GoString) : Request where
  Header := { Get := fun k =>
    if k = str "Authorization" then auth
    else if k = TP_SESSION_TOKEN then token
    else if k = TP_SERVER_NAME then server
    else if k = TP_SERVER_SECRET then pw
    else [] }
  userid := userid
  Body := none

/-- A request with the given session-token header, `userid` query parameter and
body. -/
def demoBodyRequest (token userid body : GoString) : Request where
  Header := { Get := fun k => if k = TP_SESSION_TOKEN then token else [] }
  userid := userid
  Body := some body

/-- The user record `u1` of the store. -/
def alice : User := { Id := str "u1", Name := str "alice", Pw := str "pw" }

/-- A run passes a gate when the handler returns and has written no
Unauthorized status. -/
def Run.passes (r : Run) : Prop :=
  r.exit = .returned ∧ Event.WriteHeader StatusUnauthorized ∉ r.events

/-! ## The response after a first status -/

/-- Once the status line is written, later calls change neither the status nor
the fact that it is written. -/
theorem foldl_step_wroteHeader (events : List Event) (r : Response)
    (h : r.wroteHeader = true) :
    (events.foldl Response.step r).Code = r.Code ∧
    (events.foldl Response.step r).wroteHeader = true := by
  induction events generalizing r with
  | nil => exact ⟨rfl, h⟩
  | cons e es ih =>
    have hs : (r.step e).wroteHeader = true ∧ (r.step e).Code = r.Code := by
      cases e <;> simp [Response.step, h]
    have h2 := ih (r.step e) hs.1
    simp only [List.foldl_cons]
    exact ⟨h2.1.trans hs.2, h2.2⟩

/-- When the first call of a run is `WriteHeader(code)`: if the handler returns
the status of the response is `code`, and whenever a status line reaches the
client its status is `code`. -/
theorem respond_first_status (r : Run) (code : Nat) (rest : List Event)
    (h : r.events = .WriteHeader code :: rest) :
    (r.exit = .returned → (respond r).Code = code) ∧
    ((respond r).wroteHeader = true → (respond r).Code = code) := by
  obtain ⟨events, exit⟩ := r
  simp only at h
  subst h
  have hf := foldl_step_wroteHeader rest
    { wroteHeader := true, Code := code, header := fun _ => [], sent := fun _ => [], Body := [] }
    rfl
  cases exit
  · have hc : (respond { events := .WriteHeader code :: rest, exit := .returned }).Code = code := by
      simp only [respond, List.foldl_cons, Response.step, Response.fresh, Response.finish]
      simp [hf.1, hf.2]
    exact ⟨fun _ => hc, fun _ => hc⟩
  · simp [respond, Response.fresh]
  · simp [respond, Response.fresh]

/-- The calls of a run that starts with a piece of code that goes on. -/
theorem run_events_cont_bind (a : Unit) (log : List Event) (f : Unit → Handler Unit) :
    (Handler.run (bind (Step.cont a log : Handler Unit) f)).events = log ++ (f a).run.events := by
  simp only [bind, Handler.run]
  cases f a <;> rfl

/-- The function `tokenCheck` on an absent token writes Unauthorized and goes on. -/
theorem tokenCheck_absent (m : Models) (req : Request)
    (hAbs : (m.GetSessionToken req.Header).Token = []) :
    tokenCheck m req = Step.cont () [.WriteHeader StatusUnauthorized] := by
  simp [tokenCheck, hAbs, emit, bind, pure]

/-- The function `tokenCheck` on a token that is there does nothing. -/
theorem tokenCheck_present (m : Models) (req : Request)
    (hPres : (m.GetSessionToken req.Header).Token ≠ []) :
    tokenCheck m req = Step.cont () [] := by
  simp [tokenCheck, hPres, pure]

/-! ## Splitting and base64 -/

/-- The decode map inverts the alphabet on 6-bit values. -/
theorem decodeMap_encodeURL (v : Nat) (h : v < 64) : decodeMap (encodeURL v) = some v := by
  unfold encodeURL decodeMap
  split_ifs <;> first | omega | (simp <;> omega)

/-- No character of the alphabet is the padding `=`, a carriage return or a line
feed. -/
theorem encodeURL_ne (v : Nat) : encodeURL v ≠ 61 ∧ encodeURL v ≠ 13 ∧ encodeURL v ≠ 10 := by
  unfold encodeURL
  split_ifs <;> omega

/-- Decoding the quanta of an encoding gives back the bytes. -/
theorem decodeQuanta_EncodeToString (s : GoString) :
    decodeQuanta (EncodeToString s) = some (s.map (· % 256)) := by
  induction s using EncodeToString.induct with
  | case1 => simp [EncodeToString, decodeQuanta]
  | case2 a =>
    simp only [EncodeToString, decodeQuanta]
    rw [decodeMap_encodeURL _ (Nat.mod_lt _ (by decide)),
      decodeMap_encodeURL _ (Nat.mod_lt _ (by decide))]
    simp
    omega
  | case3 a b =>
    simp only [EncodeToString, decodeQuanta]
    rw [decodeMap_encodeURL _ (Nat.mod_lt _ (by decide)),
      decodeMap_encodeURL _ (Nat.mod_lt _ (by decide))]
    simp only [(encodeURL_ne _).1, if_false]
    rw [decodeMap_encodeURL _ (Nat.mod_lt _ (by decide))]
    simp
    omega
  | case4 a b c rest ih =>
    simp only [EncodeToString, decodeQuanta]
    rw [decodeMap_encodeURL _ (Nat.mod_lt _ (by decide)),
      decodeMap_encodeURL _ (Nat.mod_lt _ (by decide))]
    simp only [(encodeURL_ne _).1, if_false]
    rw [decodeMap_encodeURL _ (Nat.mod_lt _ (by decide))]
    simp only [(encodeURL_ne _).1, if_false]
    rw [decodeMap_encodeURL _ (Nat.mod_lt _ (by decide)), ih]
    simp
    omega

/-- An encoding holds no carriage return and no line feed. -/
theorem EncodeToString_no_newline (s : GoString) :
    ∀ c ∈ EncodeToString s, c ≠ 13 ∧ c ≠ 10 := by
  induction s using EncodeToString.induct with
  | case1 => simp [EncodeToString]
  | case2 a =>
    intro c hc
    simp only [EncodeToString, List.mem_cons, List.mem_singleton, List.not_mem_nil, or_false] at hc
    rcases hc with h | h | h | h <;> subst h <;>
      first | exact ⟨(encodeURL_ne _).2.1, (encodeURL_ne _).2.2⟩ | decide
  | case3 a b =>
    intro c hc
    simp only [EncodeToString, List.mem_cons, List.mem_singleton, List.not_mem_nil, or_false] at hc
    rcases hc with h | h | h | h <;> subst h <;>
      first | exact ⟨(encodeURL_ne _).2.1, (encodeURL_ne _).2.2⟩ | decide
  | case4 a b c rest ih =>
    intro d hd
    simp only [EncodeToString, List.mem_cons] at hd
    rcases hd with h | h | h | h | h
    · subst h; exact ⟨(encodeURL_ne _).2.1, (encodeURL_ne _).2.2⟩
    · subst h; exact ⟨(encodeURL_ne _).2.1, (encodeURL_ne _).2.2⟩
    · subst h; exact ⟨(encodeURL_ne _).2.1, (encodeURL_ne _).2.2⟩
    · subst h; exact ⟨(encodeURL_ne _).2.1, (encodeURL_ne _).2.2⟩
    · exact ih d h

/-- The round trip of `URLEncoding`: decoding the encoding of a byte string gives
the byte string. -/
theorem DecodeString_EncodeToString (s : GoString) (hb : ∀ b ∈ s, b < 256) :
    DecodeString (EncodeToString s) = .ok s := by
  have hf : (EncodeToString s).filter (fun c => c != 13 && c != 10) = EncodeToString s := by
    rw [List.filter_eq_self]
    intro c hc
    have := EncodeToString_no_newline s c hc
    simp [this.1, this.2]
  have hm : s.map (· % 256) = s := by
    conv_rhs => rw [← List.map_id s]
    apply List.map_congr_left
    intro b hbs
    exact Nat.mod_eq_of_lt (hb b hbs)
  simp [DecodeString, hf, decodeQuanta_EncodeToString, hm]

/-- The first separator of `h ++ sep :: t`, when `h` has none, is the one shown. -/
theorem cut_append (sep : Nat) (h t : GoString) (hh : sep ∉ h) :
    cut sep (h ++ sep :: t) = some (h, t) := by
  induction h with
  | nil => simp [cut]
  | cons c cs ih =>
    have hc : c ≠ sep := fun e => hh (by simp [e])
    have hcs : sep ∉ cs := fun e => hh (by simp [e])
    simp [cut, hc, ih hcs]

/-- The separator is not found exactly when it does not occur. -/
theorem cut_eq_none_iff (sep : Nat) (s : GoString) : cut sep s = none ↔ sep ∉ s := by
  induction s with
  | nil => simp [cut]
  | cons c cs ih =>
    unfold cut
    by_cases hc : c = sep
    · simp [hc]
    · have hc2 : ¬ sep = c := fun e => hc e.symm
      cases hcut : cut sep cs with
      | none => simpa [hc, hc2] using ih.mp hcut
      | some p =>
        have : ¬ sep ∉ cs := fun hn => by rw [ih.mpr hn] at hcut; cases hcut
        simpa [hc, hc2] using this

/-- Without a separator the whole string is the part before it. -/
theorem cut_eq_none (sep : Nat) (s : GoString) (h : cut sep s = none) :
    s.takeWhile (· != sep) = s := by
  rw [List.takeWhile_eq_self_iff]
  intro c hc
  have hns := (cut_eq_none_iff sep s).mp h
  have : c ≠ sep := fun e => hns (e ▸ hc)
  simp [this]

/-- The part before the first separator is the longest prefix without it. -/
theorem cut_eq_some (sep : Nat) (s h t : GoString) (hcut : cut sep s = some (h, t)) :
    h = s.takeWhile (· != sep) := by
  induction s generalizing h t with
  | nil => simp [cut] at hcut
  | cons c cs ih =>
    unfold cut at hcut
    split_ifs at hcut with hc
    · simp at hcut
      simp [List.takeWhile_cons, hc, hcut.1]
    · cases hc2 : cut sep cs with
      | none => rw [hc2] at hcut; simp at hcut
      | some p =>
        obtain ⟨h2, t2⟩ := p
        rw [hc2] at hcut
        simp at hcut
        simp [List.takeWhile_cons, hc, ← hcut.1, ← ih h2 t2 hc2]

/-- The first piece of `strings.Split` is the part before the first separator. -/
theorem Split_head (s : GoString) (sep : Nat) :
    ∃ rest, Split s sep = s.takeWhile (· != sep) :: rest := by
  unfold Split
  cases hn : s.count sep with
  | zero =>
    refine ⟨[], ?_⟩
    have hns : sep ∉ s := List.count_eq_zero.mp hn
    have : s.takeWhile (· != sep) = s := by
      rw [List.takeWhile_eq_self_iff]
      intro c hc
      have : c ≠ sep := fun e => hns (e ▸ hc)
      simp [this]
    simp [SplitN, this]
  | succ n =>
    cases hcut : cut sep s with
    | none => exact ⟨[], by simp [SplitN, hcut, cut_eq_none sep s hcut]⟩
    | some p =>
      obtain ⟨h, t⟩ := p
      exact ⟨SplitN t sep (n + 1), by simp [SplitN, hcut, cut_eq_some sep s h t hcut]⟩

/-- The first two pieces of `name:secret` split at every colon: the name and the
secret up to its first colon. -/
theorem Split_append (name secret : GoString) (hn : 58 ∉ name) :
    ∃ rest, Split (name ++ 58 :: secret) 58 = name :: secret.takeWhile (· != 58) :: rest := by
  obtain ⟨rest, hrest⟩ := Split_head secret 58
  refine ⟨rest, ?_⟩
  have hc : (name ++ 58 :: secret).count 58 = secret.count 58 + 1 := by
    simp [List.count_append, List.count_eq_zero.mpr hn]
  unfold Split at hrest ⊢
  rw [hc]
  simp [SplitN, cut_append 58 name secret hn, hrest]

/-! ## Login -/

/-- C3. A Login request whose extracted credential has an empty name or an empty
secret is answered with BadRequest and nothing else happens: no store call, no
session-token header. The empty `Authorization` header is such a request:
`unpackAuth` gives it the empty credential and no error. -/
theorem Login_empty_credential_bad_request (m : Models) (j : Json) (a : Api) (req : Request)
    (usr : User)
    (hx : unpackAuth (req.Header.Get (str "Authorization")) = .ok usr)
    (he : usr.Name = [] ∨ usr.Pw = []) :
    unpackAuth [] = .ok { Id := [], Name := [], Pw := [] } ∧
    (Login m j a req).run = { events := [.WriteHeader StatusBadRequest], exit := .returned } ∧
    (respond (Login m j a req).run).Code = StatusBadRequest ∧
    storeCalls (Login m j a req).run.events = [] ∧
    headerWrites TP_SESSION_TOKEN (Login m j a req).run.events = [] := by
  have hrun : (Login m j a req).run =
      { events := [.WriteHeader StatusBadRequest], exit := .returned } := by
    simp [Login, hx, he, Handler.run, emit, bind, pure]
  rw [hrun]
  simp [unpackAuth, respond, Response.step, Response.finish, Response.fresh, storeCalls, headerWrites, Event.isStoreCall,
    Event.writesHeader]

/-- The empty `Authorization` header: Login answers BadRequest. -/
theorem Login_empty_credential_bad_request_witness :
    unpackAuth [] = .ok { Id := [], Name := [], Pw := [] } ∧
    (Login (demoModels ⟨[], false, 0⟩ true) demoJson (InitApi (demoStore (some alice) none none))
      (demoRequest [] [] [] [] [])).run =
      { events := [.WriteHeader StatusBadRequest], exit := .returned } ∧
    (respond (Login (demoModels ⟨[], false, 0⟩ true) demoJson
      (InitApi (demoStore (some alice) none none))
      (demoRequest [] [] [] [] [])).run).Code = StatusBadRequest ∧
    storeCalls (Login (demoModels ⟨[], false, 0⟩ true) demoJson
      (InitApi (demoStore (some alice) none none))
      (demoRequest [] [] [] [] [])).run.events = [] ∧
    headerWrites TP_SESSION_TOKEN (Login (demoModels ⟨[], false, 0⟩ true) demoJson
      (InitApi (demoStore (some alice) none none))
      (demoRequest [] [] [] [] [])).run.events = [] :=
  Login_empty_credential_bad_request _ _ _ (demoRequest [] [] [] [] [])
    { Id := [], Name := [], Pw := [] } (by decide) (by decide)

/-- C4. A Login request with a non-empty name and secret, for which `FindUser`
returns a user with a non-empty id and no error and `AddToken` succeeds (and
`json.Marshal` of the user gives `bytes`): the token is created from
`{UserId: user.Id, IsServer: false, Duration: 3600}` and the configured secret,
that token is passed to `AddToken`, its string is the session-token header sent
with the response, the status is OK and the body is the user record. -/
theorem Login_success_issues_user_token (m : Models) (j : Json) (a : Api) (req : Request)
    (usr u : User) (bytes : GoString)
    (hx : unpackAuth (req.Header.Get (str "Authorization")) = .ok usr)
    (hn : usr.Name ≠ []) (hp : usr.Pw ≠ [])
    (hf : a.Store.FindUser usr = (some u, none)) (hid : u.Id ≠ [])
    (hadd : a.Store.AddToken (m.NewSessionToken
      { UserId := u.Id, IsServer := false, Duration := 3600 } a.config.ServerSecret) = none)
    (hj : j.Marshal (some u) = (bytes, none)) :
    (Login m j a req).run =
      { events := [.FindUser usr,
          .AddToken (m.NewSessionToken
            { UserId := u.Id, IsServer := false, Duration := 3600 } a.config.ServerSecret),
          .HeaderSet TP_SESSION_TOKEN (m.NewSessionToken
            { UserId := u.Id, IsServer := false, Duration := 3600 } a.config.ServerSecret).Token,
          .WriteHeader StatusOK,
          .HeaderAdd (str "content-type") (str "application/json"),
          .Write bytes,
          .WriteHeader StatusUnauthorized],
        exit := .returned } ∧
    (respond (Login m j a req).run).Code = StatusOK ∧
    (respond (Login m j a req).run).Code ≠ StatusUnauthorized ∧
    (respond (Login m j a req).run).sent TP_SESSION_TOKEN =
      [(m.NewSessionToken
        { UserId := u.Id, IsServer := false, Duration := 3600 } a.config.ServerSecret).Token] ∧
    (respond (Login m j a req).run).Body = bytes := by
  have hrun : (Login m j a req).run =
      { events := [.FindUser usr,
          .AddToken (m.NewSessionToken
            { UserId := u.Id, IsServer := false, Duration := 3600 } a.config.ServerSecret),
          .HeaderSet TP_SESSION_TOKEN (m.NewSessionToken
            { UserId := u.Id, IsServer := false, Duration := 3600 } a.config.ServerSecret).Token,
          .WriteHeader StatusOK,
          .HeaderAdd (str "content-type") (str "application/json"),
          .Write bytes,
          .WriteHeader StatusUnauthorized],
        exit := .returned } := by
    simp [Login, hx, hn, hp, hf, hid, hadd, hj, Handler.run, emit, bind, pure, callFindUser,
      callAddToken, usersRes, writeUser]
  rw [hrun]
  simp [respond, Response.step, Response.finish, Response.fresh, StatusOK, StatusUnauthorized]

/-- Login with `alice:pw` against a store that knows `alice` as `u1`. -/
theorem Login_success_issues_user_token_witness :
    (Login (demoModels ⟨[], false, 0⟩ true) demoJson (InitApi (demoStore (some alice) none none))
      (demoRequest (str "Basic YWxpY2U6cHc=") [] [] [] [])).run =
      { events := [.FindUser { Id := [], Name := str "alice", Pw := str "pw" },
          .AddToken { Token := str "shhh! don\x27t tell.u1",
                      TokenData := { UserId := str "u1", IsServer := false, Duration := 3600 } },
          .HeaderSet TP_SESSION_TOKEN (str "shhh! don\x27t tell.u1"),
          .WriteHeader StatusOK,
          .HeaderAdd (str "content-type") (str "application/json"),
          .Write (str "u1"),
          .WriteHeader StatusUnauthorized],
        exit := .returned } :=
  (Login_success_issues_user_token (demoModels ⟨[], false, 0⟩ true) demoJson
    (InitApi (demoStore (some alice) none none))
    (demoRequest (str "Basic YWxpY2U6cHc=") [] [] [] [])
    { Id := [], Name := str "alice", Pw := str "pw" } alice (str "u1")
    (by decide) (by decide) (by decide) rfl (by decide) rfl rfl).1

/-- C5. At a Login with the credential `alice:pw`, a store whose `FindUser`
finds `alice` and whose `AddToken` fails: the error is dropped and the response
is Unauthorized. At a store whose `FindUser` fails: `log.Fatal` ends the process
and no status is written at all. In neither run is a store error reported to
the caller. -/
theorem Login_store_failure_not_reported :
    (Login (demoModels ⟨[], false, 0⟩ true) demoJson
      (InitApi (demoStore (some alice) none (some ⟨"store down"⟩)))
      (demoRequest (str "Basic YWxpY2U6cHc=") [] [] [] [])).run =
      { events := [.FindUser { Id := [], Name := str "alice", Pw := str "pw" },
          .AddToken { Token := str "shhh! don\x27t tell.u1",
                      TokenData := { UserId := str "u1", IsServer := false, Duration := 3600 } },
          .WriteHeader StatusUnauthorized],
        exit := .returned } ∧
    (respond (Login (demoModels ⟨[], false, 0⟩ true) demoJson
      (InitApi (demoStore (some alice) none (some ⟨"store down"⟩)))
      (demoRequest (str "Basic YWxpY2U6cHc=") [] [] [] [])).run).Code
      = StatusUnauthorized ∧
    (Login (demoModels ⟨[], false, 0⟩ true) demoJson
      (InitApi (demoStore none (some ⟨"store down"⟩) none))
      (demoRequest (str "Basic YWxpY2U6cHc=") [] [] [] [])).run =
      { events := [.FindUser { Id := [], Name := str "alice", Pw := str "pw" },
          .LogFatal ⟨"store down"⟩],
        exit := .fatal } ∧
    (respond (Login (demoModels ⟨[], false, 0⟩ true) demoJson
      (InitApi (demoStore none (some ⟨"store down"⟩) none))
      (demoRequest (str "Basic YWxpY2U6cHc=") [] [] [] [])).run).wroteHeader = false := by
  decide

/-- C10. A failed authentication check issues and persists no token. Login:
when `FindUser` returns, without error, nil or a user with an empty id, the run
is the `FindUser` call and `WriteHeader(Unauthorized)`. RefreshSession: when
the presented token does not verify, the run is `WriteHeader(Unauthorized)`
alone; so it is for the absent token, which a `Verify` that is false on the
absent token does not verify. In each case the status is Unauthorized,
`AddToken` is not called and no session-token header is set. -/
theorem failed_authentication_issues_no_token (m : Models) (j : Json) (a : Api) (req : Request) :
    (∀ (usr : User) (r : Option User),
      unpackAuth (req.Header.Get (str "Authorization")) = .ok usr →
      usr.Name ≠ [] → usr.Pw ≠ [] →
      a.Store.FindUser usr = (r, none) →
      (r = none ∨ ∃ u, r = some u ∧ u.Id = []) →
      (Login m j a req).run =
        { events := [.FindUser usr, .WriteHeader StatusUnauthorized], exit := .returned } ∧
      (respond (Login m j a req).run).Code = StatusUnauthorized ∧
      (∀ t, Event.AddToken t ∉ (Login m j a req).run.events) ∧
      headerWrites TP_SESSION_TOKEN (Login m j a req).run.events = []) ∧
    (m.Verify (m.GetSessionToken req.Header) a.config.ServerSecret = false →
      (RefreshSession m a req).run =
        { events := [.WriteHeader StatusUnauthorized], exit := .returned } ∧
      (respond (RefreshSession m a req).run).Code = StatusUnauthorized ∧
      (∀ t, Event.AddToken t ∉ (RefreshSession m a req).run.events) ∧
      headerWrites TP_SESSION_TOKEN (RefreshSession m a req).run.events = []) ∧
    (m.RejectsAbsent → (m.GetSessionToken req.Header).Token = [] →
      (RefreshSession m a req).run =
        { events := [.WriteHeader StatusUnauthorized], exit := .returned } ∧
      (respond (RefreshSession m a req).run).Code = StatusUnauthorized ∧
      (∀ t, Event.AddToken t ∉ (RefreshSession m a req).run.events) ∧
      headerWrites TP_SESSION_TOKEN (RefreshSession m a req).run.events = []) := by
  have hrefresh : m.Verify (m.GetSessionToken req.Header) a.config.ServerSecret = false →
      (RefreshSession m a req).run =
        { events := [.WriteHeader StatusUnauthorized], exit := .returned } ∧
      (respond (RefreshSession m a req).run).Code = StatusUnauthorized ∧
      (∀ t, Event.AddToken t ∉ (RefreshSession m a req).run.events) ∧
      headerWrites TP_SESSION_TOKEN (RefreshSession m a req).run.events = [] := by
    intro hv
    have hrun : (RefreshSession m a req).run =
        { events := [.WriteHeader StatusUnauthorized], exit := .returned } := by
      simp [RefreshSession, hv, Handler.run, emit, bind, pure]
    rw [hrun]
    simp [respond, Response.step, Response.finish, Response.fresh, headerWrites, Event.writesHeader]
  refine ⟨?_, hrefresh, fun hAbs ht => hrefresh (hAbs _ _ ht)⟩
  intro usr r hx hn hp hf hr
  have hrun : (Login m j a req).run =
      { events := [.FindUser usr, .WriteHeader StatusUnauthorized], exit := .returned } := by
    rcases hr with hr | ⟨u, hr, hu⟩
    · subst hr
      simp [Login, hx, hn, hp, hf, Handler.run, emit, bind, pure, callFindUser]
    · subst hr
      simp [Login, hx, hn, hp, hf, hu, Handler.run, emit, bind, pure, callFindUser]
  rw [hrun]
  simp [respond, Response.step, Response.finish, Response.fresh, headerWrites, Event.writesHeader]

/-- Login for a name the store does not know; RefreshSession with a token that
does not verify; RefreshSession without a token. -/
theorem failed_authentication_issues_no_token_witness :
    (Login (demoModels ⟨[], false, 0⟩ true) demoJson (InitApi (demoStore none none none))
      (demoRequest (str "Basic YWxpY2U6cHc=") [] [] [] [])).run =
      { events := [.FindUser { Id := [], Name := str "alice", Pw := str "pw" },
          .WriteHeader StatusUnauthorized], exit := .returned } ∧
    (RefreshSession (demoModels ⟨str "u1", false, 3600⟩ false)
      (InitApi (demoStore none none none))
      (demoRequest [] (str "forged") [] [] [])).run =
      { events := [.WriteHeader StatusUnauthorized], exit := .returned } ∧
    (RefreshSession (demoModels ⟨str "u1", false, 3600⟩ true) (InitApi (demoStore none none none))
      (demoRequest [] [] [] [] [])).run =
      { events := [.WriteHeader StatusUnauthorized], exit := .returned } :=
  ⟨((failed_authentication_issues_no_token (demoModels ⟨[], false, 0⟩ true) demoJson
      (InitApi (demoStore none none none))
      (demoRequest (str "Basic YWxpY2U6cHc=") [] [] [] [])).1
      { Id := [], Name := str "alice", Pw := str "pw" } none (by decide) (by decide)
      (by decide) rfl (Or.inl rfl)).1,
   ((failed_authentication_issues_no_token (demoModels ⟨str "u1", false, 3600⟩ false) demoJson
      (InitApi (demoStore none none none))
      (demoRequest [] (str "forged") [] [] [])).2.1 (by decide)).1,
   ((failed_authentication_issues_no_token (demoModels ⟨str "u1", false, 3600⟩ true) demoJson
      (InitApi (demoStore none none none))
      (demoRequest [] [] [] [] [])).2.2
      (by intro t secret ht; simp [demoModels, ht]) (by decide)).1⟩

/-! ## ServerLogin -/

/-- C6. ServerLogin with server-name header `n` and server-secret header `s`.
If `n` or `s` is empty: BadRequest and no store call. Otherwise, if `s` is not
the configured server secret: Unauthorized, no store call and no session-token
header. Otherwise, when `AddToken` succeeds: the token created from
`{UserId: n, IsServer: true, Duration: 3600}` is the one passed to `AddToken`,
its string is the session-token header sent, and the status is OK. -/
theorem ServerLogin_outcomes (m : Models) (a : Api) (req : Request) :
    ((req.Header.Get TP_SERVER_NAME = [] ∨ req.Header.Get TP_SERVER_SECRET = []) →
      (ServerLogin m a req).run =
        { events := [.WriteHeader StatusBadRequest], exit := .returned } ∧
      (respond (ServerLogin m a req).run).Code = StatusBadRequest ∧
      storeCalls (ServerLogin m a req).run.events = []) ∧
    (req.Header.Get TP_SERVER_NAME ≠ [] → req.Header.Get TP_SERVER_SECRET ≠ [] →
      req.Header.Get TP_SERVER_SECRET ≠ a.config.ServerSecret →
      (ServerLogin m a req).run =
        { events := [.WriteHeader StatusUnauthorized], exit := .returned } ∧
      (respond (ServerLogin m a req).run).Code = StatusUnauthorized ∧
      storeCalls (ServerLogin m a req).run.events = [] ∧
      headerWrites TP_SESSION_TOKEN (ServerLogin m a req).run.events = []) ∧
    (req.Header.Get TP_SERVER_NAME ≠ [] → req.Header.Get TP_SERVER_SECRET ≠ [] →
      req.Header.Get TP_SERVER_SECRET = a.config.ServerSecret →
      a.Store.AddToken (m.NewSessionToken
        { UserId := req.Header.Get TP_SERVER_NAME, IsServer := true, Duration := 3600 }
        a.config.ServerSecret) = none →
      (ServerLogin m a req).run =
        { events := [
            .AddToken (m.NewSessionToken
              { UserId := req.Header.Get TP_SERVER_NAME, IsServer := true, Duration := 3600 }
              a.config.ServerSecret),
            .HeaderSet TP_SESSION_TOKEN (m.NewSessionToken
              { UserId := req.Header.Get TP_SERVER_NAME, IsServer := true, Duration := 3600 }
              a.config.ServerSecret).Token,
            .WriteHeader StatusOK],
          exit := .returned } ∧
      (respond (ServerLogin m a req).run).Code = StatusOK ∧
      (respond (ServerLogin m a req).run).sent TP_SESSION_TOKEN =
        [(m.NewSessionToken
          { UserId := req.Header.Get TP_SERVER_NAME, IsServer := true, Duration := 3600 }
          a.config.ServerSecret).Token]) := by
  refine ⟨?_, ?_, ?_⟩
  · intro h
    have hrun : (ServerLogin m a req).run =
        { events := [.WriteHeader StatusBadRequest], exit := .returned } := by
      simp [ServerLogin, h, Handler.run, emit, bind, pure]
    rw [hrun]
    simp [respond, Response.step, Response.finish, Response.fresh, storeCalls, Event.isStoreCall]
  · intro hn hs hne
    have hrun : (ServerLogin m a req).run =
        { events := [.WriteHeader StatusUnauthorized], exit := .returned } := by
      simp [ServerLogin, hn, hs, hne, Handler.run, emit, bind, pure]
    rw [hrun]
    simp [respond, Response.step, Response.finish, Response.fresh, storeCalls, Event.isStoreCall, headerWrites,
      Event.writesHeader]
  · intro hn hs he hadd
    have hrun : (ServerLogin m a req).run =
        { events := [
            .AddToken (m.NewSessionToken
              { UserId := req.Header.Get TP_SERVER_NAME, IsServer := true, Duration := 3600 }
              a.config.ServerSecret),
            .HeaderSet TP_SESSION_TOKEN (m.NewSessionToken
              { UserId := req.Header.Get TP_SERVER_NAME, IsServer := true, Duration := 3600 }
              a.config.ServerSecret).Token,
            .WriteHeader StatusOK],
          exit := .returned } := by
      have hs2 : a.config.ServerSecret ≠ [] := he ▸ hs
      simp [ServerLogin, hn, hs2, he, hadd, Handler.run, emit, bind, pure, callAddToken]
    rw [hrun]
    simp [respond, Response.step, Response.finish, Response.fresh]

/-- The three outcomes of ServerLogin at concrete requests: no server name; a
wrong secret; the configured secret. -/
theorem ServerLogin_outcomes_witness :
    (ServerLogin (demoModels ⟨[], false, 0⟩ true) (InitApi (demoStore none none none))
      (demoRequest [] [] [] (str "shhh! don\x27t tell") [])).run =
      { events := [.WriteHeader StatusBadRequest], exit := .returned } ∧
    (ServerLogin (demoModels ⟨[], false, 0⟩ true) (InitApi (demoStore none none none))
      (demoRequest [] [] (str "hydrophone") (str "guess") [])).run =
      { events := [.WriteHeader StatusUnauthorized], exit := .returned } ∧
    (ServerLogin (demoModels ⟨[], false, 0⟩ true) (InitApi (demoStore none none none))
      (demoRequest [] [] (str "hydrophone") (str "shhh! don\x27t tell") [])).run =
      { events := [
          .AddToken { Token := str "shhh! don\x27t tell.hydrophone",
                      TokenData := { UserId := str "hydrophone", IsServer := true,
                                     Duration := 3600 } },
          .HeaderSet TP_SESSION_TOKEN (str "shhh! don\x27t tell.hydrophone"),
          .WriteHeader StatusOK],
        exit := .returned } :=
  ⟨((ServerLogin_outcomes (demoModels ⟨[], false, 0⟩ true) (InitApi (demoStore none none none))
      (demoRequest [] [] [] (str "shhh! don\x27t tell") [])).1 (Or.inl (by decide))).1,
   ((ServerLogin_outcomes (demoModels ⟨[], false, 0⟩ true) (InitApi (demoStore none none none))
      (demoRequest [] [] (str "hydrophone") (str "guess") [])).2.1
      (by decide) (by decide) (by decide)).1,
   ((ServerLogin_outcomes (demoModels ⟨[], false, 0⟩ true) (InitApi (demoStore none none none))
      (demoRequest [] [] (str "hydrophone") (str "shhh! don\x27t tell") [])).2.2
      (by decide) (by decide) (by decide) rfl).1⟩

/-! ## RefreshSession -/

/-- C7, as stated, fails. A user token of duration 3600 that verifies, at a
store whose `AddToken` fails: the branch is not PassThrough, the new token is
passed to `AddToken`, and then `log.Fatal` ends the process; no session-token
header is set and no response is written, so the new token is not returned. -/
theorem RefreshSession_store_failure_returns_no_token :
    (demoModels ⟨str "u1", false, 3600⟩ true).Verify
      ((demoModels ⟨str "u1", false, 3600⟩ true).GetSessionToken
        (demoRequest [] (str "t0") [] [] []).Header)
      (InitApi (demoStore none none (some ⟨"store down"⟩))).config.ServerSecret = true ∧
    (RefreshSession (demoModels ⟨str "u1", false, 3600⟩ true)
      (InitApi (demoStore none none (some ⟨"store down"⟩)))
      (demoRequest [] (str "t0") [] [] [])).run =
      { events := [
          .AddToken { Token := str "shhh! don\x27t tell.u1",
                      TokenData := { UserId := str "u1", IsServer := false, Duration := 10000 } },
          .LogFatal ⟨"store down"⟩],
        exit := .fatal } ∧
    headerWrites TP_SESSION_TOKEN (RefreshSession (demoModels ⟨str "u1", false, 3600⟩ true)
      (InitApi (demoStore none none (some ⟨"store down"⟩)))
      (demoRequest [] (str "t0") [] [] [])).run.events = [] ∧
    (respond (RefreshSession (demoModels ⟨str "u1", false, 3600⟩ true)
      (InitApi (demoStore none none (some ⟨"store down"⟩)))
      (demoRequest [] (str "t0") [] [] [])).run).sent TP_SESSION_TOKEN = [] ∧
    (respond (RefreshSession (demoModels ⟨str "u1", false, 3600⟩ true)
      (InitApi (demoStore none none (some ⟨"store down"⟩)))
      (demoRequest [] (str "t0") [] [] [])).run).wroteHeader = false := by
  decide

/-- C7, amended. For a presented token that verifies, RefreshSession makes no
store call exactly when the token is a user token whose duration exceeds 7200
seconds; then the response carries the presented token string in the
session-token header, status OK and the subject id in the body. In every other
case the one store call is `AddToken` of the token created from the same
`UserId`, the same `IsServer` and `Duration` 10000, and when that call succeeds
the new token string is the session-token header sent, with status OK. -/
theorem RefreshSession_policy (m : Models) (a : Api) (req : Request)
    (hv : m.Verify (m.GetSessionToken req.Header) a.config.ServerSecret = true) :
    (((m.GetSessionToken req.Header).TokenData.IsServer = false ∧
        (m.GetSessionToken req.Header).TokenData.Duration > 7200) →
      (RefreshSession m a req).run =
        { events := [
            .HeaderAdd TP_SESSION_TOKEN (m.GetSessionToken req.Header).Token,
            .HeaderAdd (str "content-type") (str "application/json"),
            .WriteHeader StatusOK,
            .Write (str "\x7b\"userid\": " ++ (m.GetSessionToken req.Header).TokenData.UserId
              ++ str " \x7d")],
          exit := .returned } ∧
      (respond (RefreshSession m a req).run).Code = StatusOK ∧
      (respond (RefreshSession m a req).run).sent TP_SESSION_TOKEN =
        [(m.GetSessionToken req.Header).Token]) ∧
    (¬ ((m.GetSessionToken req.Header).TokenData.IsServer = false ∧
        (m.GetSessionToken req.Header).TokenData.Duration > 7200) →
      storeCalls (RefreshSession m a req).run.events =
        [.AddToken (m.NewSessionToken
          { UserId := (m.GetSessionToken req.Header).TokenData.UserId,
            IsServer := (m.GetSessionToken req.Header).TokenData.IsServer,
            Duration := 10000 } a.config.ServerSecret)] ∧
      (a.Store.AddToken (m.NewSessionToken
          { UserId := (m.GetSessionToken req.Header).TokenData.UserId,
            IsServer := (m.GetSessionToken req.Header).TokenData.IsServer,
            Duration := 10000 } a.config.ServerSecret) = none →
        (RefreshSession m a req).run =
          { events := [
              .AddToken (m.NewSessionToken
                { UserId := (m.GetSessionToken req.Header).TokenData.UserId,
                  IsServer := (m.GetSessionToken req.Header).TokenData.IsServer,
                  Duration := 10000 } a.config.ServerSecret),
              .HeaderSet TP_SESSION_TOKEN (m.NewSessionToken
                { UserId := (m.GetSessionToken req.Header).TokenData.UserId,
                  IsServer := (m.GetSessionToken req.Header).TokenData.IsServer,
                  Duration := 10000 } a.config.ServerSecret).Token,
              .WriteHeader StatusOK],
            exit := .returned } ∧
        (respond (RefreshSession m a req).run).Code = StatusOK ∧
        (respond (RefreshSession m a req).run).sent TP_SESSION_TOKEN =
          [(m.NewSessionToken
            { UserId := (m.GetSessionToken req.Header).TokenData.UserId,
              IsServer := (m.GetSessionToken req.Header).TokenData.IsServer,
              Duration := 10000 } a.config.ServerSecret).Token])) ∧
    (storeCalls (RefreshSession m a req).run.events = [] ↔
      ((m.GetSessionToken req.Header).TokenData.IsServer = false ∧
        (m.GetSessionToken req.Header).TokenData.Duration > 7200)) := by
  have hpass : ((m.GetSessionToken req.Header).TokenData.IsServer = false ∧
        (m.GetSessionToken req.Header).TokenData.Duration > 7200) →
      (RefreshSession m a req).run =
        { events := [
            .HeaderAdd TP_SESSION_TOKEN (m.GetSessionToken req.Header).Token,
            .HeaderAdd (str "content-type") (str "application/json"),
            .WriteHeader StatusOK,
            .Write (str "\x7b\"userid\": " ++ (m.GetSessionToken req.Header).TokenData.UserId
              ++ str " \x7d")],
          exit := .returned } := by
    intro h
    simp [RefreshSession, hv, h.1, h.2, Handler.run, emit, bind, pure]
  have hre : ¬ ((m.GetSessionToken req.Header).TokenData.IsServer = false ∧
        (m.GetSessionToken req.Header).TokenData.Duration > 7200) →
      storeCalls (RefreshSession m a req).run.events =
        [.AddToken (m.NewSessionToken
          { UserId := (m.GetSessionToken req.Header).TokenData.UserId,
            IsServer := (m.GetSessionToken req.Header).TokenData.IsServer,
            Duration := 10000 } a.config.ServerSecret)] := by
    intro h
    cases hadd : a.Store.AddToken (m.NewSessionToken
          { UserId := (m.GetSessionToken req.Header).TokenData.UserId,
            IsServer := (m.GetSessionToken req.Header).TokenData.IsServer,
            Duration := 10000 } a.config.ServerSecret) <;>
      simp [RefreshSession, hv, h, hadd, Handler.run, emit, bind, pure, callAddToken, errorRes,
        logFatal, halt, storeCalls, Event.isStoreCall]
  refine ⟨?_, ?_, ?_⟩
  · intro h
    have hkey : ¬ TP_SESSION_TOKEN = str "content-type" := by decide
    rw [hpass h]
    simp [respond, Response.step, Response.finish, Response.fresh, hkey]
  · intro h
    refine ⟨hre h, ?_⟩
    intro hadd
    have hrun : (RefreshSession m a req).run =
          { events := [
              .AddToken (m.NewSessionToken
                { UserId := (m.GetSessionToken req.Header).TokenData.UserId,
                  IsServer := (m.GetSessionToken req.Header).TokenData.IsServer,
                  Duration := 10000 } a.config.ServerSecret),
              .HeaderSet TP_SESSION_TOKEN (m.NewSessionToken
                { UserId := (m.GetSessionToken req.Header).TokenData.UserId,
                  IsServer := (m.GetSessionToken req.Header).TokenData.IsServer,
                  Duration := 10000 } a.config.ServerSecret).Token,
              .WriteHeader StatusOK],
            exit := .returned } := by
      simp [RefreshSession, hv, h, hadd, Handler.run, emit, bind, pure, callAddToken]
    rw [hrun]
    simp [respond, Response.step, Response.finish, Response.fresh]
  · constructor
    · intro hs
      by_contra h
      rw [hre h] at hs
      simp at hs
    · intro h
      rw [hpass h]
      simp [storeCalls, Event.isStoreCall]

/-- A long user token is passed through; a short one is reissued. -/
theorem RefreshSession_policy_witness :
    (RefreshSession (demoModels ⟨str "u1", false, 10000⟩ true) (InitApi (demoStore none none none))
      (demoRequest [] (str "t0") [] [] [])).run =
      { events := [
          .HeaderAdd TP_SESSION_TOKEN (str "t0"),
          .HeaderAdd (str "content-type") (str "application/json"),
          .WriteHeader StatusOK,
          .Write (str "\x7b\"userid\": u1 \x7d")],
        exit := .returned } ∧
    (RefreshSession (demoModels ⟨str "u1", false, 7200⟩ true) (InitApi (demoStore none none none))
      (demoRequest [] (str "t0") [] [] [])).run =
      { events := [
          .AddToken { Token := str "shhh! don\x27t tell.u1",
                      TokenData := { UserId := str "u1", IsServer := false, Duration := 10000 } },
          .HeaderSet TP_SESSION_TOKEN (str "shhh! don\x27t tell.u1"),
          .WriteHeader StatusOK],
        exit := .returned } ∧
    (RefreshSession (demoModels ⟨str "hydrophone", true, 10000⟩ true)
      (InitApi (demoStore none none none))
      (demoRequest [] (str "t0") [] [] [])).run =
      { events := [
          .AddToken { Token := str "shhh! don\x27t tell.hydrophone",
                      TokenData := { UserId := str "hydrophone", IsServer := true,
                                     Duration := 10000 } },
          .HeaderSet TP_SESSION_TOKEN (str "shhh! don\x27t tell.hydrophone"),
          .WriteHeader StatusOK],
        exit := .returned } :=
  ⟨((RefreshSession_policy (demoModels ⟨str "u1", false, 10000⟩ true)
      (InitApi (demoStore none none none)) (demoRequest [] (str "t0") [] [] []) (by decide)).1
      (by decide)).1,
   (((RefreshSession_policy (demoModels ⟨str "u1", false, 7200⟩ true)
      (InitApi (demoStore none none none)) (demoRequest [] (str "t0") [] [] []) (by decide)).2.1
      (by decide)).2 rfl).1,
   (((RefreshSession_policy (demoModels ⟨str "hydrophone", true, 10000⟩ true)
      (InitApi (demoStore none none none)) (demoRequest [] (str "t0") [] [] []) (by decide)).2.1
      (by decide)).2 rfl).1⟩

/-! ## RequireServerToken -/

/-- C8. RequireServerToken lets a request pass (it returns and writes no
Unauthorized status) exactly when a token is presented, it verifies against the
configured secret, and its data has `IsServer = true`. A token that is absent,
does not verify, or is a user token is rejected: the status is Unauthorized.
For a `Verify` that is false on the absent token, the request passes exactly
when the token verifies and is a server token. -/
theorem RequireServerToken_passes_iff (m : Models) (a : Api) (req : Request) :
    ((RequireServerToken m a req).run.passes ↔
      ((m.GetSessionToken req.Header).Token ≠ [] ∧
        m.Verify (m.GetSessionToken req.Header) a.config.ServerSecret = true ∧
        (m.GetSessionToken req.Header).TokenData.IsServer = true)) ∧
    (((m.GetSessionToken req.Header).Token = [] ∨
        m.Verify (m.GetSessionToken req.Header) a.config.ServerSecret = false ∨
        (m.GetSessionToken req.Header).TokenData.IsServer = false) →
      (respond (RequireServerToken m a req).run).Code = StatusUnauthorized ∧
      Event.WriteHeader StatusUnauthorized ∈ (RequireServerToken m a req).run.events) ∧
    (m.RejectsAbsent →
      ((RequireServerToken m a req).run.passes ↔
        (m.Verify (m.GetSessionToken req.Header) a.config.ServerSecret = true ∧
          (m.GetSessionToken req.Header).TokenData.IsServer = true))) := by
  have hmain : ((RequireServerToken m a req).run.passes ↔
      ((m.GetSessionToken req.Header).Token ≠ [] ∧
        m.Verify (m.GetSessionToken req.Header) a.config.ServerSecret = true ∧
        (m.GetSessionToken req.Header).TokenData.IsServer = true)) ∧
    (((m.GetSessionToken req.Header).Token = [] ∨
        m.Verify (m.GetSessionToken req.Header) a.config.ServerSecret = false ∨
        (m.GetSessionToken req.Header).TokenData.IsServer = false) →
      (respond (RequireServerToken m a req).run).Code = StatusUnauthorized ∧
      Event.WriteHeader StatusUnauthorized ∈ (RequireServerToken m a req).run.events) := by
    by_cases ht : (m.GetSessionToken req.Header).Token = []
    · cases hv : m.Verify (m.GetSessionToken req.Header) a.config.ServerSecret <;>
      cases hs : (m.GetSessionToken req.Header).TokenData.IsServer <;>
      simp [RequireServerToken, tokenCheck_absent m req ht, ht, hv, hs, Run.passes, Handler.run,
        emit, bind, pure, respond, Response.step, Response.finish, Response.fresh]
    · cases hv : m.Verify (m.GetSessionToken req.Header) a.config.ServerSecret <;>
      cases hs : (m.GetSessionToken req.Header).TokenData.IsServer <;>
      simp [RequireServerToken, tokenCheck_present m req ht, ht, hv, hs, Run.passes, Handler.run,
        emit, bind, pure, respond, Response.step, Response.finish, Response.fresh]
  refine ⟨hmain.1, hmain.2, ?_⟩
  intro hAbs
  rw [hmain.1]
  constructor
  · exact fun h => h.2
  · intro h
    refine ⟨?_, h⟩
    intro ht
    have := hAbs _ a.config.ServerSecret ht
    rw [h.1] at this
    exact Bool.noConfusion this

/-- A server token passes; a user token and an absent token are rejected. -/
theorem RequireServerToken_passes_iff_witness :
    (RequireServerToken (demoModels ⟨str "hydrophone", true, 3600⟩ true)
      (InitApi (demoStore none none none)) (demoRequest [] (str "t0") [] [] [])).run.passes ∧
    (respond (RequireServerToken (demoModels ⟨str "u1", false, 3600⟩ true)
      (InitApi (demoStore none none none))
      (demoRequest [] (str "t0") [] [] [])).run).Code = StatusUnauthorized ∧
    (respond (RequireServerToken (demoModels ⟨str "hydrophone", true, 3600⟩ true)
      (InitApi (demoStore none none none))
      (demoRequest [] [] [] [] [])).run).Code = StatusUnauthorized :=
  ⟨(RequireServerToken_passes_iff (demoModels ⟨str "hydrophone", true, 3600⟩ true)
      (InitApi (demoStore none none none)) (demoRequest [] (str "t0") [] [] [])).1.2
      ⟨by decide, by decide, by decide⟩,
   ((RequireServerToken_passes_iff (demoModels ⟨str "u1", false, 3600⟩ true)
      (InitApi (demoStore none none none)) (demoRequest [] (str "t0") [] [] [])).2.1
      (Or.inr (Or.inr (by decide)))).1,
   ((RequireServerToken_passes_iff (demoModels ⟨str "hydrophone", true, 3600⟩ true)
      (InitApi (demoStore none none none)) (demoRequest [] [] [] [] [])).2.1
      (Or.inl (by decide))).1⟩

/-! ## The token check of UpdateUser, GetUserInfo and DeleteUser -/

/-- C9, as stated, fails. UpdateUser with a body, the query parameter
`userid=u1` and a token that is there and does not verify: `UpsertUser` is
called and the response is OK, not Unauthorized. The same request without a
token: Unauthorized is written, and `UpsertUser` is called all the same. -/
theorem UpdateUser_token_check_does_not_stop :
    (demoModels ⟨[], false, 0⟩ false).Verify
      ((demoModels ⟨[], false, 0⟩ false).GetSessionToken
        (demoBodyRequest (str "forged") (str "u1") (str "alice")).Header)
      (InitApi (demoStore none none none)).config.ServerSecret = false ∧
    (UpdateUser (demoModels ⟨[], false, 0⟩ false) demoJson (InitApi (demoStore none none none))
      (demoBodyRequest (str "forged") (str "u1") (str "alice"))).run =
      { events := [.UpsertUser { Id := str "u1", Name := str "alice", Pw := [] },
          .WriteHeader StatusOK],
        exit := .returned } ∧
    (respond (UpdateUser (demoModels ⟨[], false, 0⟩ false) demoJson
      (InitApi (demoStore none none none))
      (demoBodyRequest (str "forged") (str "u1") (str "alice"))).run).Code = StatusOK ∧
    StatusOK ≠ StatusUnauthorized ∧
    (UpdateUser (demoModels ⟨[], false, 0⟩ false) demoJson (InitApi (demoStore none none none))
      (demoBodyRequest [] (str "u1") (str "alice"))).run =
      { events := [.WriteHeader StatusUnauthorized,
          .UpsertUser { Id := str "u1", Name := str "alice", Pw := [] },
          .WriteHeader StatusOK],
        exit := .returned } ∧
    storeCalls (UpdateUser (demoModels ⟨[], false, 0⟩ false) demoJson
      (InitApi (demoStore none none none))
      (demoBodyRequest [] (str "u1") (str "alice"))).run.events =
      [.UpsertUser { Id := str "u1", Name := str "alice", Pw := [] }] := by
  decide

/-- C9, amended. For a request to UpdateUser, GetUserInfo or DeleteUser whose
session token is absent, the first call of the handler is
`WriteHeader(Unauthorized)`: whenever the handler returns, the status of the
response is Unauthorized, and no status line with another status reaches the
client. DeleteUser always returns. -/
theorem absent_token_status_unauthorized (m : Models) (j : Json) (a : Api) (req : Request)
    (hAbs : (m.GetSessionToken req.Header).Token = []) :
    ((UpdateUser m j a req).run.events.head? = some (.WriteHeader StatusUnauthorized) ∧
      ((UpdateUser m j a req).run.exit = .returned →
        (respond (UpdateUser m j a req).run).Code = StatusUnauthorized) ∧
      ((respond (UpdateUser m j a req).run).wroteHeader = true →
        (respond (UpdateUser m j a req).run).Code = StatusUnauthorized)) ∧
    ((GetUserInfo m j a req).run.events.head? = some (.WriteHeader StatusUnauthorized) ∧
      ((GetUserInfo m j a req).run.exit = .returned →
        (respond (GetUserInfo m j a req).run).Code = StatusUnauthorized) ∧
      ((respond (GetUserInfo m j a req).run).wroteHeader = true →
        (respond (GetUserInfo m j a req).run).Code = StatusUnauthorized)) ∧
    ((DeleteUser m req).run =
        { events := [.WriteHeader StatusUnauthorized, .WriteHeader 501], exit := .returned } ∧
      (respond (DeleteUser m req).run).Code = StatusUnauthorized) := by
  refine ⟨?_, ?_, ?_⟩
  · have he : ∃ rest, (UpdateUser m j a req).run.events =
        .WriteHeader StatusUnauthorized :: rest := by
      unfold UpdateUser
      rw [tokenCheck_absent m req hAbs, run_events_cont_bind]
      exact ⟨_, rfl⟩
    obtain ⟨rest, he⟩ := he
    exact ⟨by rw [he]; rfl, respond_first_status _ _ _ he⟩
  · have he : ∃ rest, (GetUserInfo m j a req).run.events =
        .WriteHeader StatusUnauthorized :: rest := by
      unfold GetUserInfo
      rw [tokenCheck_absent m req hAbs, run_events_cont_bind]
      exact ⟨_, rfl⟩
    obtain ⟨rest, he⟩ := he
    exact ⟨by rw [he]; rfl, respond_first_status _ _ _ he⟩
  · have hrun : (DeleteUser m req).run =
        { events := [.WriteHeader StatusUnauthorized, .WriteHeader 501], exit := .returned } := by
      simp [DeleteUser, tokenCheck_absent m req hAbs, Handler.run, emit, bind]
    rw [hrun]
    simp [respond, Response.step, Response.finish, Response.fresh]

/-- The three handlers at a request without a session token, with a body and the
query parameter `userid=u1`: each returns and the status is Unauthorized. -/
theorem absent_token_status_unauthorized_witness :
    (respond (UpdateUser (demoModels ⟨[], false, 0⟩ true) demoJson
      (InitApi (demoStore (some alice) none none))
      (demoBodyRequest [] (str "u1") (str "alice"))).run).Code = StatusUnauthorized ∧
    (respond (GetUserInfo (demoModels ⟨[], false, 0⟩ true) demoJson
      (InitApi (demoStore (some alice) none none))
      (demoBodyRequest [] (str "u1") (str "alice"))).run).Code = StatusUnauthorized ∧
    (respond (DeleteUser (demoModels ⟨[], false, 0⟩ true)
      (demoBodyRequest [] (str "u1") (str "alice"))).run).Code = StatusUnauthorized :=
  have h := absent_token_status_unauthorized (demoModels ⟨[], false, 0⟩ true) demoJson
    (InitApi (demoStore (some alice) none none)) (demoBodyRequest [] (str "u1") (str "alice")) rfl
  ⟨h.1.2.1 (by decide), h.2.1.2.1 (by decide), h.2.2.2⟩

/-- UpdateUser without a token and with an empty body: Unauthorized is written,
the body does not decode, `log.Fatal` ends the process, and no status line
reaches the client. -/
theorem UpdateUser_absent_token_empty_body_exits :
    (UpdateUser (demoModels ⟨[], false, 0⟩ true) demoJson
      (InitApi (demoStore (some alice) none none))
      (demoBodyRequest [] (str "u1") [])).run =
      { events := [.WriteHeader StatusUnauthorized, .LogFatal ⟨"EOF"⟩], exit := .fatal } ∧
    (respond (UpdateUser (demoModels ⟨[], false, 0⟩ true) demoJson
      (InitApi (demoStore (some alice) none none))
      (demoBodyRequest [] (str "u1") [])).run).wroteHeader = false := by
  decide

/-! ## unpackAuth -/

/-- What `unpackAuth` does on a well-formed header: the name is returned, the
password is the secret up to its first colon. -/
theorem unpackAuth_basic (scheme name secret : GoString)
    (hs : 32 ∉ scheme) (hn : 58 ∉ name) (hb : ∀ b ∈ name ++ 58 :: secret, b < 256) :
    unpackAuth (scheme ++ 32 :: EncodeToString (name ++ 58 :: secret)) =
      .ok { Id := [], Name := name, Pw := secret.takeWhile (· != 58) } := by
  obtain ⟨rest, hrest⟩ := Split_append name secret hn
  have hne : scheme ++ 32 :: EncodeToString (name ++ 58 :: secret) ≠ [] := by simp
  simp [unpackAuth, hne, SplitN, cut_append 32 scheme _ hs, DecodeString_EncodeToString _ hb, hrest]

/-- When the header has a space and the payload after the first space does not
decode, `unpackAuth` returns the decoding error. -/
theorem unpackAuth_decode_error (scheme payload : GoString) (e : GoError)
    (hs : 32 ∉ scheme) (hd : DecodeString payload = .error e) :
    unpackAuth (scheme ++ 32 :: payload) = .error e := by
  have hne : scheme ++ 32 :: payload ≠ [] := by simp
  simp [unpackAuth, hne, SplitN, cut_append 32 scheme _ hs, hd]

/-- When the decoded payload has no colon, `unpackAuth` panics at `details[1]`. -/
theorem unpackAuth_no_colon (scheme payload decoded : GoString)
    (hs : 32 ∉ scheme) (hd : DecodeString payload = .ok decoded) (hc : 58 ∉ decoded) :
    unpackAuth (scheme ++ 32 :: payload) = .panic "index out of range" := by
  have hne : scheme ++ 32 :: payload ≠ [] := by simp
  have hsp : Split decoded 58 = [decoded] := by
    simp [Split, List.count_eq_zero.mpr hc, SplitN]
  simp [unpackAuth, hne, SplitN, cut_append 32 scheme _ hs, hd, hsp]

/-- When a non-empty header has no space, `unpackAuth` panics at `parts[1]`. -/
theorem unpackAuth_no_space (authLine : GoString) (hne : authLine ≠ []) (hs : 32 ∉ authLine) :
    unpackAuth authLine = .panic "index out of range" := by
  have hcut : cut 32 authLine = none := (cut_eq_none_iff 32 authLine).mpr hs
  simp [unpackAuth, hne, SplitN, hcut]

/-- C1. The payload `YWxpY2U=` decodes to `alice`, which has no colon: on the
header `Basic YWxpY2U=` the index `details[1]` is out of range and `unpackAuth`
panics instead of returning an error. On the header `Basic`, which has no
space, the index `parts[1]` is out of range and `unpackAuth` panics. -/
theorem unpackAuth_panics_without_separator :
    DecodeString (str "YWxpY2U=") = .ok (str "alice") ∧
    unpackAuth (str "Basic YWxpY2U=") = .panic "index out of range" ∧
    unpackAuth (str "Basic") = .panic "index out of range" ∧
    (Login (demoModels ⟨[], false, 0⟩ true) demoJson (InitApi (demoStore (some alice) none none))
      (demoRequest (str "Basic YWxpY2U=") [] [] [] [])).run =
      { events := [], exit := .panic } := by
  decide

/-- C2. The header `Basic ` followed by the base64 encoding of `alice:a:b`, that
is the name `alice` and the secret `a:b`: `unpackAuth` returns the password `a`,
the secret cut at its first colon, not the whole secret. -/
theorem unpackAuth_cuts_secret_at_colon :
    EncodeToString (str "alice" ++ 58 :: str "a:b") = str "YWxpY2U6YTpi" ∧
    unpackAuth (str "Basic " ++ EncodeToString (str "alice" ++ 58 :: str "a:b")) =
      .ok { Id := [], Name := str "alice", Pw := str "a" } ∧
    str "a" ≠ str "a:b" := by
  decide

end Shoreline
